import Mathlib

/-!
Shallow embedding of `src/main.js` (three.js product carousel page):
model configuration, carousel construction, hover/pick state machine,
the timer-based click dispatcher, the timestamp-based window click
listener, the model loader counter, and the render-loop raw re-pick.
Scales, positions and rotations are rationals; times are naturals
(milliseconds).
-/

namespace CarouselPage

/-- A 3-component vector (position / rotation / scale triple). -/
structure Vec3 where
  x : ℚ
  y : ℚ
  z : ℚ
deriving DecidableEq, Repr

/-- Constant `MODEL_SCALE = 3.0` (main.js line 5). -/
def MODEL_SCALE : ℚ := 3

/-- One entry of the `MODEL_POSITIONS` configuration array. -/
structure ModelConfig where
  name : String
  position : Vec3
  rotation : Vec3
  scale : ℚ
deriving DecidableEq, Repr

/-- The `MODEL_POSITIONS` configuration array (main.js lines 181-211):
three entries, rotations in radians written as exact rationals. -/
def MODEL_POSITIONS : List ModelConfig :=
  [ { name := "rockbody"
      position := { x := -8, y := 0, z := 0 }
      rotation := { x := -(1/2), y := 19/10, z := 3/2 }
      scale := MODEL_SCALE },
    { name := "shin"
      position := { x := 3, y := 1, z := -7 }
      rotation := { x := 1/2, y := -(9/20), z := 1 }
      scale := MODEL_SCALE },
    { name := "kidsynth"
      position := { x := 7, y := 0, z := 9 }
      rotation := { x := 0, y := 19/5, z := 0 }
      scale := MODEL_SCALE } ]

/-- The `MODEL_PATHS` array of asset paths (main.js line 157). -/
def MODEL_PATHS : List String :=
  ["./rockbodytest.glb", "./shintest.glb", "./kidsynth.glb"]

/-- One carousel model instance: the `THREE.Group` created per config slot
together with its cloned child model and its `userData` record
(main.js lines 220-285).  `groupScale` is the group's live scale
(`group.scale`, set uniformly), `childScale` the cloned model's own scale
(`model.scale`), `scaleTarget` the destination of the most recent gsap
tween on `group.scale` (initially the construction value). -/
structure ModelInstance where
  name : String
  groupName : String
  childName : String
  templateIndex : Nat
  position : Vec3
  rotation : Vec3
  groupScale : ℚ
  childScale : ℚ
  scaleTarget : ℚ
  originalPosition : Vec3
  originalRotation : Vec3
  originalScale : ℚ
deriving DecidableEq, Repr

/-- Build the instance for slot `i` from its config entry, as in the body of
the `createCarousel` loop: `modelIndex = i % modelTemplates.length`,
`scale = config.scale || MODEL_SCALE`, fresh position/rotation copies,
`model.scale.set(scale,scale,scale)` on the clone and
`group.scale.set(scale,scale,scale)` on the group, and the
`userData.original*` records taken from the applied values. -/
def mkInstance (numTemplates : Nat) (i : Nat) (config : ModelConfig) :
    ModelInstance :=
  let scale := if config.scale = 0 then MODEL_SCALE else config.scale
  let modelIndex := i % numTemplates
  { name := config.name
    groupName := "carousel-item-" ++ toString i
    childName := "model-" ++ toString i ++ "-" ++ toString modelIndex
    templateIndex := modelIndex
    position := config.position
    rotation := config.rotation
    groupScale := scale
    childScale := scale
    scaleTarget := scale
    originalPosition := config.position
    originalRotation := config.rotation
    originalScale := scale }

/-- Function `createCarousel(modelTemplates)` (main.js lines 214-286): one instance per
`MODEL_POSITIONS` entry, template chosen by index modulo the template count.
With zero templates the JS indexes `modelTemplates[NaN]` and throws on
`.clone()`, modelled as `none`. -/
def createCarousel (numTemplates : Nat) : Option (List ModelInstance) :=
  if numTemplates = 0 then none
  else some (MODEL_POSITIONS.enum.map fun p => mkInstance numTemplates p.1 p.2)

/-- The effective rendered scale factor of an instance's mesh: the group's
scale composed with the cloned child model's scale (three.js multiplies
scales down the scene graph). -/
def effectiveScale (m : ModelInstance) : ℚ :=
  m.groupScale * m.childScale

/-! ## Hover / pick state machine (`handleHover`, main.js lines 302-382) -/

/-- A gsap tween request: `gsap.to(target.scale, \x7bx,y,z, duration, ease\x7d)`
with a uniform scale destination. `idx` indexes into the `objects` list. -/
structure Tween where
  idx : Nat
  targetScale : ℚ
  duration : ℚ
  ease : String
deriving DecidableEq, Repr

/-- The `duration: 0.3, ease: 'power2.out'` tween used throughout the hover
code. -/
def tweenTo (idx : Nat) (target : ℚ) : Tween :=
  { idx := idx, targetScale := target, duration := 3/10, ease := "power2.out" }

/-- Hover-related mutable page state: the `objects` list, the
`currentHoveredModel` reference (as an index into `objects`) and the
`pointer-cursor` body class. -/
structure HoverState where
  instances : List ModelInstance
  current : Option Nat
  pointerCursor : Bool
deriving DecidableEq, Repr

/-- Apply `f` to element `i` of a list, leaving the rest unchanged
(mutation of a three.js object held by reference). -/
def updateAt {α : Type} : List α → Nat → (α → α) → List α
  | [], _, _ => []
  | a :: rest, 0, f => f a :: rest
  | a :: rest, n+1, f => a :: updateAt rest n f

/-- Update instance `i` of the list in place (three.js objects are mutated
by reference). -/
def updateInst (l : List ModelInstance) (i : Nat)
    (f : ModelInstance → ModelInstance) : List ModelInstance :=
  updateAt l i f

/-- Record a gsap scale tween on instance `i`: the tween's destination
becomes the instance's `scaleTarget`. -/
def setScaleTarget (l : List ModelInstance) (i : Nat) (t : ℚ) :
    List ModelInstance :=
  updateInst l i fun m => { m with scaleTarget := t }

/-- Field `userData.originalScale` of instance `i` of the current state
(0 if the index is out of range; theorems hypothesise valid indices). -/
def origOf (s : HoverState) (i : Nat) : ℚ :=
  ((s.instances.get? i).map ModelInstance.originalScale).getD 0

/-- Field `userData.name` of instance `i` of the current state. -/
def nameOf (s : HoverState) (i : Nat) : String :=
  ((s.instances.get? i).map ModelInstance.name).getD ""

/-- An entry of the raycaster's `intersects` list, abstracted to what the
ancestor walk of `handleHover` sees: the chain of objects from the hit
object up through its parents, each either carrying a
`userData.originalPosition` tag for carousel instance `i` (`some i`) or
untagged (`none`). -/
def HitChain := List (Option Nat)

/-- The ancestor walk for one intersection entry
(`while (obj && !obj.userData.originalPosition) obj = obj.parent`):
the first tagged ancestor, if any. -/
def resolveChain (chain : HitChain) : Option Nat :=
  chain.findSome? id

/-- The loop over `intersects` in `handleHover`: the first entry whose
ancestor walk finds a tagged model root wins (`model = obj; break`). -/
def resolveModel (hits : List HitChain) : Option Nat :=
  hits.findSome? resolveChain

/-- Function `handleHover()` (main.js lines 302-382), driven by the resolved ray
intersections. Returns the new state together with the list of gsap tweens
issued, in program order. -/
def handleHover (s : HoverState) (hits : List HitChain) :
    HoverState × List Tween :=
  if hits.length > 0 then
    match resolveModel hits with
    | some m =>
      if some m ≠ s.current then
        let resetPrev :
            List ModelInstance × List Tween :=
          match s.current with
          | some p => (setScaleTarget s.instances p (origOf s p),
                       [tweenTo p (origOf s p)])
          | none => (s.instances, [])
        let ensured :=
          updateInst resetPrev.1 m fun inst =>
            if inst.name = "" then { inst with name := inst.groupName }
            else inst
        let hoverScale := origOf s m * (11/10)
        ({ instances := setScaleTarget ensured m hoverScale
           current := some m
           pointerCursor := true },
         resetPrev.2 ++ [tweenTo m hoverScale])
      else (s, [])
    | none =>
      match s.current with
      | some p =>
        ({ instances := setScaleTarget s.instances p (origOf s p)
           current := none
           pointerCursor := false },
         [tweenTo p (origOf s p)])
      | none => (s, [])
  else
    match s.current with
    | some p =>
      ({ instances := setScaleTarget s.instances p (origOf s p)
         current := none
         pointerCursor := false },
       [tweenTo p (origOf s p)])
    | none => (s, [])

/-! ## Click dispatcher (`onModelClick` / `onMouseClick`, main.js
lines 385-436) -/

/-- The fixed `modelPages` name-to-page lookup table (main.js
lines 388-392). -/
def modelPages (n : String) : Option String :=
  if n = "rockbody" then some "LI1-new"
  else if n = "shin" then some "Shinkansen-new"
  else if n = "kidsynth" then some "Kid-Synth-new"
  else none

/-- The model name used by `onModelClick`:
`currentHoveredModel.userData.name ||
(currentHoveredModel.children[0]?.name || '').toLowerCase()`. -/
def clickModelName (m : ModelInstance) : String :=
  if m.name ≠ "" then m.name else m.childName.toLower

/-- Function `onModelClick()` (main.js lines 385-402): when a model is hovered,
the assignment made to `window.location.href`, namely
`pageName + ".html"` with `pageName = modelPages[modelName] || 'index'`;
`none` when nothing is hovered (no navigation). -/
def onModelClick (hovered : Option ModelInstance) : Option String :=
  match hovered with
  | none => none
  | some m =>
    let pageName := (modelPages (clickModelName m)).getD "index"
    some (pageName ++ ".html")

/-- Click dispatcher state: `clickCount` and the pending `clickTimer`,
modelled as the absolute time (ms) at which the 300 ms timeout fires. -/
structure ClickState where
  clickCount : Nat
  clickTimer : Option Nat
deriving DecidableEq, Repr

/-- The idle click dispatcher state (`clickCount = 0`, no timer). -/
def initClickState : ClickState := { clickCount := 0, clickTimer := none }

/-- The pending click timer is due at time `t` (its `setTimeout` callback may
have fired by then). -/
def timerDue (s : ClickState) (t : Nat) : Prop :=
  ∃ d, s.clickTimer = some d ∧ d ≤ t

/-- The `setTimeout` callback of the single-click timer (main.js
lines 421-425): reset `clickCount` and `clickTimer`. -/
def clickTimerFire (_s : ClickState) : ClickState :=
  { clickCount := 0, clickTimer := none }

/-- Function `onMouseClick(event)` (main.js lines 407-436) at time `now` with the
current hover target `hovered`: returns the new dispatcher state and the
`window.location.href` assignment, if any. The first click arms a 300 ms
timer; a further click clears it and, when a model is hovered, runs
`onModelClick`. -/
def onMouseClick (s : ClickState) (now : Nat)
    (hovered : Option ModelInstance) : ClickState × Option String :=
  let cc := s.clickCount + 1
  if cc = 1 then
    ({ clickCount := cc, clickTimer := some (now + 300) }, none)
  else
    ({ clickCount := 0, clickTimer := none },
     if hovered.isSome then onModelClick hovered else none)

/-! ## Timestamp-based window click listener (main.js lines 477-513) -/

/-- Constant `doubleClickThreshold = 300` (main.js line 478). -/
def doubleClickThreshold : Nat := 300

/-- State of the second, independent click listener: `lastClickTime`. -/
structure WinClickState where
  lastClickTime : Nat
deriving DecidableEq, Repr

/-- The anonymous `window.addEventListener('click', ...)` listener
(main.js lines 498-513) at time `now`, with `rayHit` recording whether
`raycaster.intersectObjects(objects)` returned any intersection: returns
the new state and whether `window.open('', '_blank')` was called. -/
def windowClickListener (s : WinClickState) (now : Nat) (rayHit : Bool) :
    WinClickState × Bool :=
  if rayHit then
    ({ lastClickTime := now },
     decide (now - s.lastClickTime < doubleClickThreshold))
  else (s, false)

/-- Combined state of both click paths, to state their independence. -/
structure PageClickState where
  click : ClickState
  win : WinClickState
deriving DecidableEq, Repr

/-- Effect of one browser `click` event on the combined state: both
listeners run on the same event; `onMouseClick` touches only `click`,
the window listener only `win`. -/
def pageClick (s : PageClickState) (now : Nat)
    (hovered : Option ModelInstance) (rayHit : Bool) :
    PageClickState × Option String × Bool :=
  let r1 := onMouseClick s.click now hovered
  let r2 := windowClickListener s.win now rayHit
  ({ click := r1.1, win := r2.1 }, r1.2, r2.2)

/-! ## Model loader (`loadModels`, main.js lines 160-175) -/

/-- Loader-phase page state: the `loadedCount` counter, the `objects` list
(empty until `createCarousel` runs), whether `createCarousel` was invoked,
and whether any error was surfaced to the user. -/
structure LoadState where
  loadedCount : Nat
  objects : List ModelInstance
  carouselBuilt : Bool
  errorSurfaced : Bool
deriving DecidableEq, Repr

/-- Page state right after `loadModels()` is called: nothing loaded. -/
def initLoadState : LoadState :=
  { loadedCount := 0, objects := [], carouselBuilt := false
    errorSurfaced := false }

/-- An asynchronous outcome for the load of `MODEL_PATHS[i]`. -/
inductive LoadEvent where
  | success (i : Nat)
  | failure (i : Nat)
deriving DecidableEq, Repr

/-- The index of a successful completion, `none` for a failure. -/
def LoadEvent.successIndex : LoadEvent → Option Nat
  | .success i => some i
  | .failure _ => none

/-- Process one load outcome. A success runs the `loader.load` callback
(main.js lines 165-173): increment `loadedCount` and, exactly when it
reaches `MODEL_PATHS.length`, call `createCarousel(models)` with the three
loaded templates. `loader.load` is given no error callback, so a failure
changes nothing and surfaces nothing. -/
def loadStep (s : LoadState) (e : LoadEvent) : LoadState :=
  match e with
  | .success _ =>
    let lc := s.loadedCount + 1
    if lc = MODEL_PATHS.length then
      { loadedCount := lc
        objects := (createCarousel MODEL_PATHS.length).getD []
        carouselBuilt := true
        errorSurfaced := s.errorSurfaced }
    else { s with loadedCount := lc }
  | .failure _ => s

/-- Run a trace of load outcomes from the initial state. -/
def runLoads (events : List LoadEvent) : LoadState :=
  events.foldl loadStep initLoadState

/-- The indices whose loads completed successfully in a trace. -/
def successIndices (events : List LoadEvent) : List Nat :=
  events.filterMap LoadEvent.successIndex

/-! ## Render-loop re-pick (`animate`, main.js lines 548-569) -/

/-- State of the render loop's own hover mechanism: `hoveredObject` (an
index into the flat list of raw picked objects) and each such object's raw
scale triple, mutated directly with `scale.set`. -/
structure AnimState where
  hoveredObject : Option Nat
  rawScales : List Vec3
deriving DecidableEq, Repr

/-- Overwrite entry `i` of a scale list with the uniform triple `(v,v,v)`
(`obj.scale.set(v, v, v)`). -/
def setRawScale (l : List Vec3) (i : Nat) (v : ℚ) : List Vec3 :=
  updateAt l i fun _ => { x := v, y := v, z := v }

/-- One frame's hover section of `animate()` (main.js lines 554-569),
driven by the first raw intersected object (`intersects[0].object`), if
any: snap the previous object back to `(1,1,1)` when it changed, snap the
hit object to `(1.08,1.08,1.08)`, with no tween. -/
def animateHoverStep (s : AnimState) (hit : Option Nat) : AnimState :=
  match hit with
  | some o =>
    let scales1 :=
      match s.hoveredObject with
      | some h => if h ≠ o then setRawScale s.rawScales h 1 else s.rawScales
      | none => s.rawScales
    { hoveredObject := some o
      rawScales := setRawScale scales1 o (108/100) }
  | none =>
    match s.hoveredObject with
    | some h =>
      { hoveredObject := none, rawScales := setRawScale s.rawScales h 1 }
    | none => s

/-! ## Live-transform mutations after construction (for the
`userData.original*` independence invariant) -/

/-- Every way the page mutates an instance's live transform after
construction: a `handleHover` run (mouse move), a gsap tween advancing a
group's live scale toward its target, or the render loop snapping a scale
with `scale.set`. None of them writes to `userData`. -/
inductive LiveMutation where
  | hoverStep (hits : List HitChain)
  | tweenAdvance (i : Nat) (v : ℚ)
  | rawSnap (i : Nat) (v : ℚ)

/-- Apply one live-transform mutation to the hover-visible page state. -/
def applyMutation (s : HoverState) : LiveMutation → HoverState
  | .hoverStep hits => (handleHover s hits).1
  | .tweenAdvance i v =>
    { s with instances :=
        updateInst s.instances i (fun m => { m with groupScale := v }) }
  | .rawSnap i v =>
    { s with instances :=
        updateInst s.instances i (fun m => { m with groupScale := v }) }

/-- The `userData` record of an instance: the fields written once at
construction (`name` may be re-written by `handleHover`'s fallback, which
is why it is not listed here). -/
def originals (m : ModelInstance) : Vec3 × Vec3 × ℚ :=
  (m.originalPosition, m.originalRotation, m.originalScale)

/-- The carousel built from the three loaded templates, used as a concrete
sample state. -/
def sampleCarousel : List ModelInstance :=
  (createCarousel MODEL_PATHS.length).getD []

/-- The first configuration entry (the "rockbody" slot), for concrete
instantiations. -/
def rockbodyConfig : ModelConfig :=
  { name := "rockbody"
    position := { x := -8, y := 0, z := 0 }
    rotation := { x := -(1/2), y := 19/10, z := 3/2 }
    scale := MODEL_SCALE }

/-! ## Helper lemmas -/

theorem updateAt_length {α : Type} (l : List α) (i : Nat) (f : α → α) :
    (updateAt l i f).length = l.length := by
  induction l generalizing i with
  | nil => rfl
  | cons a rest ih =>
    cases i with
    | zero => rfl
    | succ n => simp [updateAt, ih]

theorem get?_updateAt_self {α : Type} (l : List α) (i : Nat) (f : α → α) :
    (updateAt l i f).get? i = (l.get? i).map f := by
  induction l generalizing i with
  | nil => rfl
  | cons a rest ih =>
    cases i with
    | zero => rfl
    | succ n => simpa [updateAt] using ih n

theorem get?_updateAt_ne {α : Type} (l : List α) (i j : Nat) (f : α → α)
    (h : j ≠ i) : (updateAt l i f).get? j = l.get? j := by
  induction l generalizing i j with
  | nil => rfl
  | cons a rest ih =>
    cases i with
    | zero =>
      cases j with
      | zero => exact absurd rfl h
      | succ k => rfl
    | succ n =>
      cases j with
      | zero => rfl
      | succ k => simpa [updateAt] using ih n k (by omega)

theorem map_updateAt {α β : Type} (l : List α) (i : Nat) (f : α → α)
    (g : α → β) (hg : ∀ a, g (f a) = g a) :
    (updateAt l i f).map g = l.map g := by
  induction l generalizing i with
  | nil => rfl
  | cons a rest ih =>
    cases i with
    | zero => simp [updateAt, hg]
    | succ n => simp [updateAt, ih]

theorem setScaleTarget_map_originals (l : List ModelInstance) (i : Nat)
    (t : ℚ) : (setScaleTarget l i t).map originals = l.map originals :=
  map_updateAt _ _ _ _ (fun _ => rfl)

theorem updateInst_ensureName_map_originals (l : List ModelInstance)
    (m : Nat) :
    (updateInst l m fun inst =>
      if inst.name = "" then { inst with name := inst.groupName }
      else inst).map originals = l.map originals :=
  map_updateAt _ _ _ _ (fun a => by
    by_cases ha : a.name = "" <;> simp [ha, originals])

/-- Function `handleHover` writes only `scaleTarget`, `name`, `current` and the
cursor class: the `userData.original*` records survive unchanged. -/
theorem handleHover_map_originals (s : HoverState) (hits : List HitChain) :
    ((handleHover s hits).1).instances.map originals =
      s.instances.map originals := by
  unfold handleHover
  by_cases h0 : hits.length > 0
  · rw [if_pos h0]
    cases hres : resolveModel hits with
    | none =>
      cases hcur : s.current with
      | none => rfl
      | some p => simp [setScaleTarget_map_originals]
    | some m =>
      dsimp only
      by_cases hm : some m ≠ s.current
      · rw [if_pos hm]
        cases hcur : s.current with
        | none =>
          dsimp only
          rw [setScaleTarget_map_originals,
            updateInst_ensureName_map_originals]
        | some p =>
          dsimp only
          rw [setScaleTarget_map_originals,
            updateInst_ensureName_map_originals,
            setScaleTarget_map_originals]
      · rw [if_neg hm]
  · rw [if_neg h0]
    cases hcur : s.current with
    | none => rfl
    | some p => simp [setScaleTarget_map_originals]

theorem handleHover_instances_length (s : HoverState) (hits : List HitChain) :
    ((handleHover s hits).1).instances.length = s.instances.length := by
  have h := congrArg List.length (handleHover_map_originals s hits)
  simpa using h

theorem applyMutation_map_originals (s : HoverState) (mu : LiveMutation) :
    ((applyMutation s mu).instances).map originals =
      s.instances.map originals := by
  cases mu with
  | hoverStep hits => exact handleHover_map_originals s hits
  | tweenAdvance i v =>
    exact map_updateAt _ _ _ _ (fun _ => rfl)
  | rawSnap i v =>
    exact map_updateAt _ _ _ _ (fun _ => rfl)

theorem applyMutation_instances_length (s : HoverState) (mu : LiveMutation) :
    ((applyMutation s mu).instances).length = s.instances.length := by
  have h := congrArg List.length (applyMutation_map_originals s mu)
  simpa using h

theorem foldl_applyMutation_map_originals (muts : List LiveMutation)
    (s : HoverState) :
    ((muts.foldl applyMutation s).instances).map originals =
      s.instances.map originals := by
  induction muts generalizing s with
  | nil => rfl
  | cons mu rest ih =>
    rw [List.foldl_cons, ih, applyMutation_map_originals]

theorem foldl_applyMutation_instances_length (muts : List LiveMutation)
    (s : HoverState) :
    ((muts.foldl applyMutation s).instances).length =
      s.instances.length := by
  have h := congrArg List.length (foldl_applyMutation_map_originals muts s)
  simpa using h

theorem get?_map_of_map_eq {α β : Type} {l l' : List α} (g : α → β)
    (h : l.map g = l'.map g) (i : Nat) :
    (l.get? i).map g = (l'.get? i).map g := by
  have h2 := congrArg (fun x => x.get? i) h
  simpa [List.get?_map] using h2

theorem get?_map_originalScale_of_map_originals
    {l l' : List ModelInstance}
    (h : l.map originals = l'.map originals) (i : Nat) :
    (l.get? i).map ModelInstance.originalScale =
      (l'.get? i).map ModelInstance.originalScale := by
  have h2 := congrArg (Option.map fun x => x.2.2)
    (get?_map_of_map_eq originals h i)
  simpa [Option.map_map, Function.comp_def, originals] using h2

theorem origOf_handleHover (s : HoverState) (hits : List HitChain)
    (i : Nat) : origOf (handleHover s hits).1 i = origOf s i := by
  unfold origOf
  rw [get?_map_originalScale_of_map_originals
    (handleHover_map_originals s hits) i]

/-- A resolved ray hit makes its model root the (sole) hover target. -/
theorem handleHover_current (s : HoverState) (hits : List HitChain)
    (m : Nat) (hres : resolveModel hits = some m) :
    ((handleHover s hits).1).current = some m := by
  have h0 : hits.length > 0 := by
    cases hits with
    | nil => simp [resolveModel] at hres
    | cons a rest => simp
  unfold handleHover
  rw [if_pos h0, hres]
  dsimp only
  by_cases hm : some m ≠ s.current
  · rw [if_pos hm]
  · rw [if_neg hm]
    exact (not_ne_iff.mp hm).symm

theorem createCarousel_pos (n : Nat) (h : 0 < n) :
    createCarousel n =
      some (MODEL_POSITIONS.enum.map fun p => mkInstance n p.1 p.2) := by
  unfold createCarousel
  rw [if_neg (Nat.pos_iff_ne_zero.mp h)]

theorem get?_setRawScale_self (l : List Vec3) (i : Nat) (v : ℚ)
    (hi : i < l.length) :
    (setRawScale l i v).get? i = some { x := v, y := v, z := v } := by
  rw [setRawScale, get?_updateAt_self]
  cases hg : l.get? i with
  | none =>
    rw [List.get?_eq_none] at hg
    omega
  | some a => rfl

theorem setRawScale_length (l : List Vec3) (i : Nat) (v : ℚ) :
    (setRawScale l i v).length = l.length :=
  updateAt_length l i _

/-- A mouse move with no ray intersection while `p` is hovered tweens `p`
back to its original scale and clears the hover target and cursor. -/
theorem handleHover_nil (s : HoverState) (p : Nat)
    (hcur : s.current = some p) :
    (handleHover s []).1 =
      { instances := setScaleTarget s.instances p (origOf s p)
        current := none
        pointerCursor := false } := by
  unfold handleHover
  rw [if_neg (by simp), hcur]

/-- As long as the successes in a trace cannot bring `loadedCount` up to
`MODEL_PATHS.length`, the loader only counts: `createCarousel` is never
invoked and `objects` and `errorSurfaced` are untouched. -/
theorem foldl_loadStep_below (events : List LoadEvent) (s : LoadState)
    (hcnt : s.loadedCount + (successIndices events).length <
      MODEL_PATHS.length) :
    (events.foldl loadStep s).carouselBuilt = s.carouselBuilt ∧
    (events.foldl loadStep s).objects = s.objects ∧
    (events.foldl loadStep s).loadedCount =
      s.loadedCount + (successIndices events).length ∧
    (events.foldl loadStep s).errorSurfaced = s.errorSurfaced := by
  induction events generalizing s with
  | nil => simp [successIndices]
  | cons e rest ih =>
    cases e with
    | success i =>
      have hlen : (successIndices (LoadEvent.success i :: rest)).length =
          (successIndices rest).length + 1 := by
        simp [successIndices, LoadEvent.successIndex]
      rw [hlen] at hcnt
      have hne : ¬ (s.loadedCount + 1 = MODEL_PATHS.length) := by
        have h3 : MODEL_PATHS.length = 3 := rfl
        omega
      have hstep : loadStep s (LoadEvent.success i) =
          { s with loadedCount := s.loadedCount + 1 } := by
        unfold loadStep
        rw [if_neg hne]
      rw [List.foldl_cons, hstep, hlen]
      obtain ⟨h1, h2, h3, h4⟩ :=
        ih { s with loadedCount := s.loadedCount + 1 }
          (by dsimp only; omega)
      refine ⟨h1, h2, ?_, h4⟩
      rw [h3]
      dsimp only
      omega
    | failure i =>
      have hlen : (successIndices (LoadEvent.failure i :: rest)).length =
          (successIndices rest).length := by
        simp [successIndices, LoadEvent.successIndex]
      rw [hlen] at hcnt
      have hstep : loadStep s (LoadEvent.failure i) = s := rfl
      rw [List.foldl_cons, hstep, hlen]
      exact ih s hcnt

/-! ## Claims -/

/-- C2: Whenever the carousel is built — which the loader does only once the
load counter reaches the number of asset paths — `createCarousel` produces
exactly one model instance per `MODEL_POSITIONS` entry, i.e. three,
regardless of how many model templates were loaded (any positive count,
cycled via `i % modelTemplates.length`); and the instance count stays
three under every later hover / tween / render-loop mutation. -/
theorem carousel_count_eq_config_count (n : Nat) (h : 0 < n) :
    ∃ l, createCarousel n = some l ∧
      l.length = MODEL_POSITIONS.length ∧ MODEL_POSITIONS.length = 3 ∧
      ∀ (muts : List LiveMutation) (cur : Option Nat) (pc : Bool),
        ((muts.foldl applyMutation
          { instances := l, current := cur,
            pointerCursor := pc }).instances).length = 3 := by
  refine ⟨MODEL_POSITIONS.enum.map fun p => mkInstance n p.1 p.2,
    createCarousel_pos n h, rfl, rfl, ?_⟩
  intro muts cur pc
  rw [foldl_applyMutation_instances_length]
  rfl

/-- Witness for `carousel_count_eq_config_count` at the actual template
count (three loaded templates). -/
theorem carousel_count_eq_config_count_witness :
    0 < 3 ∧
    ∃ l, createCarousel 3 = some l ∧
      l.length = MODEL_POSITIONS.length ∧ MODEL_POSITIONS.length = 3 ∧
      ∀ (muts : List LiveMutation) (cur : Option Nat) (pc : Bool),
        ((muts.foldl applyMutation
          { instances := l, current := cur,
            pointerCursor := pc }).instances).length = 3 :=
  ⟨by decide, carousel_count_eq_config_count 3 (by decide)⟩

/-- C6: a click event dispatched while no model is the current hover target
never assigns the browser location: `onMouseClick` returns no navigation
for every dispatcher state and click time when `currentHoveredModel` is
null. -/
theorem click_without_hover_never_navigates (s : ClickState) (now : Nat) :
    (onMouseClick s now none).2 = none := by
  unfold onMouseClick
  by_cases h : s.clickCount + 1 = 1
  · rw [if_pos h]
  · rw [if_neg h]
    simp [onModelClick]

/-- C10: the recorded `userData.originalPosition`, `originalRotation` and
`originalScale` of every instance are independent of all later live-transform
mutations: any sequence of `handleHover` runs, gsap tween advances and
render-loop `scale.set` snaps leaves all three stored originals of every
instance exactly as they were at construction. -/
theorem originals_survive_live_mutations (muts : List LiveMutation)
    (s : HoverState) (i : Nat) :
    (((muts.foldl applyMutation s).instances.get? i).map
        ModelInstance.originalPosition =
      (s.instances.get? i).map ModelInstance.originalPosition) ∧
    (((muts.foldl applyMutation s).instances.get? i).map
        ModelInstance.originalRotation =
      (s.instances.get? i).map ModelInstance.originalRotation) ∧
    (((muts.foldl applyMutation s).instances.get? i).map
        ModelInstance.originalScale =
      (s.instances.get? i).map ModelInstance.originalScale) := by
  have h := get?_map_of_map_eq originals
    (foldl_applyMutation_map_originals muts s) i
  refine ⟨?_, ?_, ?_⟩
  · have h2 := congrArg (Option.map fun x => x.1) h
    simpa [Option.map_map, Function.comp_def, originals] using h2
  · have h2 := congrArg (Option.map fun x => x.2.1) h
    simpa [Option.map_map, Function.comp_def, originals] using h2
  · have h2 := congrArg (Option.map fun x => x.2.2) h
    simpa [Option.map_map, Function.comp_def, originals] using h2

/-- C1: from the idle dispatcher, a click at `t1` navigates nowhere and arms
the 300 ms single-click timer; a second click at `t2 < t1 + 300` arrives
before the timer is due, cancels it (state back to idle, no pending timer),
is treated as a double-click, and with a model hovered sets the location to
`page + ".html"` where `page` is looked up in the fixed
rockbody/shin/kidsynth table, defaulting to "index". -/
theorem double_click_navigates (t1 t2 : Nat) (hov1 : Option ModelInstance)
    (inst : ModelInstance) (h12 : t2 < t1 + 300) :
    (onMouseClick initClickState t1 hov1).2 = none ∧
    (onMouseClick initClickState t1 hov1).1.clickTimer = some (t1 + 300) ∧
    ¬ timerDue (onMouseClick initClickState t1 hov1).1 t2 ∧
    (onMouseClick (onMouseClick initClickState t1 hov1).1 t2
      (some inst)).1 = initClickState ∧
    (onMouseClick (onMouseClick initClickState t1 hov1).1 t2
      (some inst)).2 =
      some ((modelPages (clickModelName inst)).getD "index" ++ ".html") ∧
    modelPages "rockbody" = some "LI1-new" ∧
    modelPages "shin" = some "Shinkansen-new" ∧
    modelPages "kidsynth" = some "Kid-Synth-new" := by
  refine ⟨rfl, rfl, ?_, rfl, rfl, rfl, rfl, rfl⟩
  rintro ⟨d, hd, hle⟩
  have hd' : some (t1 + 300) = some d := hd
  injection hd' with h
  omega

/-- Witness for `double_click_navigates`: clicks at 0 ms and 100 ms with the
"rockbody" instance hovered navigate to "LI1-new.html". -/
theorem double_click_navigates_witness :
    (100 : Nat) < 0 + 300 ∧
    (onMouseClick (onMouseClick initClickState 0 none).1 100
      (some (mkInstance 3 0 rockbodyConfig))).2 = some "LI1-new.html" := by
  refine ⟨by decide, ?_⟩
  have h := (double_click_navigates 0 100 none
    (mkInstance 3 0 rockbodyConfig) (by decide)).2.2.2.2.1
  rw [h]
  decide

/-- C3 counterexample: at the concrete carousel built from the three loaded
templates, the claimed equality "effective rendered scale = configured
scale field" evaluates to `false` on every instance: the configured scale
is 3.0 throughout, but `createCarousel` applies it both to the group and to
the cloned child model, so the effective rendered scale of every instance
is 9.0. -/
theorem effective_scale_equals_config_refuted :
    sampleCarousel.map effectiveScale = [9, 9, 9] ∧
    MODEL_POSITIONS.map ModelConfig.scale = [3, 3, 3] ∧
    (9 : ℚ) ≠ 3 := by
  refine ⟨?_, ?_, by norm_num⟩
  · norm_num [sampleCarousel, createCarousel, mkInstance, effectiveScale,
      MODEL_POSITIONS, MODEL_PATHS, MODEL_SCALE, List.enum, List.enumFrom]
  · norm_num [ MODEL_POSITIONS, MODEL_SCALE]

/-- C3 amended: after all three loads resolve, each created instance sits at
its configured position with its configured rotation, and the configured
scale field (`MODEL_SCALE` = 3.0) is applied twice — to the group and to
the cloned child model — so both carry the configured scale and the
effective rendered scale is its square, 9.0. -/
theorem carousel_instances_configured_transforms (n i : Nat) (h : 0 < n)
    (config : ModelConfig)
    (hc : MODEL_POSITIONS.get? i = some config) :
    ∃ l inst, createCarousel n = some l ∧ l.get? i = some inst ∧
      inst.position = config.position ∧
      inst.rotation = config.rotation ∧
      inst.groupScale = config.scale ∧
      inst.childScale = config.scale ∧
      effectiveScale inst = config.scale * config.scale ∧
      config.scale = MODEL_SCALE := by
  have hi : i < MODEL_POSITIONS.length := by
    by_contra hlt
    push_neg at hlt
    rw [List.get?_eq_none.mpr hlt] at hc
    cases hc
  have hscale : config.scale = MODEL_SCALE := by
    have h2 := congrArg (Option.map ModelConfig.scale) hc
    rw [← List.get?_map] at h2
    have hi3 : i < 3 := hi
    interval_cases i
    · exact (Option.some.inj h2).symm
    · exact (Option.some.inj h2).symm
    · exact (Option.some.inj h2).symm
  have hget : ((MODEL_POSITIONS.enum.map fun p =>
      mkInstance n p.1 p.2).get? i) = some (mkInstance n i config) := by
    rw [List.get?_map, List.get?_enum, hc]
    rfl
  have hs0 : config.scale ≠ 0 := by
    rw [hscale]
    norm_num [ MODEL_SCALE]
  refine ⟨_, mkInstance n i config, createCarousel_pos n h, hget,
    rfl, rfl, ?_, ?_, ?_, hscale⟩
  · show (if config.scale = 0 then MODEL_SCALE else config.scale) =
      config.scale
    rw [if_neg hs0]
  · show (if config.scale = 0 then MODEL_SCALE else config.scale) =
      config.scale
    rw [if_neg hs0]
  · show (if config.scale = 0 then MODEL_SCALE else config.scale) *
      (if config.scale = 0 then MODEL_SCALE else config.scale) =
      config.scale * config.scale
    rw [if_neg hs0]

/-- Witness for `carousel_instances_configured_transforms` at slot 0 of the
actual configuration with three templates. -/
theorem carousel_instances_configured_transforms_witness :
    0 < 3 ∧
    MODEL_POSITIONS.get? 0 = some rockbodyConfig ∧
    (∃ l inst, createCarousel 3 = some l ∧ l.get? 0 = some inst ∧
      inst.position = rockbodyConfig.position ∧
      inst.rotation = rockbodyConfig.rotation ∧
      inst.groupScale = rockbodyConfig.scale ∧
      inst.childScale = rockbodyConfig.scale ∧
      effectiveScale inst = rockbodyConfig.scale * rockbodyConfig.scale ∧
      rockbodyConfig.scale = MODEL_SCALE) :=
  ⟨by decide, rfl,
    carousel_instances_configured_transforms 3 0 (by decide)
      rockbodyConfig rfl⟩

/-- C4: hover followed by unhover is the identity on an instance's tweened
target scale: after a mouse move whose ray resolves to instance `i` (making
it the hover target) and a later mouse move with no intersection at all,
the gsap tween destination for instance `i` equals the
`userData.originalScale` recorded at construction. -/
theorem hover_unhover_restores_scale (s : HoverState) (i : Nat)
    (hi : i < s.instances.length) :
    (((handleHover (handleHover s [[some i]]).1 []).1).instances.get? i).map
        ModelInstance.scaleTarget =
      (s.instances.get? i).map ModelInstance.originalScale := by
  have hcur : (handleHover s [[some i]]).1.current = some i :=
    handleHover_current s [[some i]] i rfl
  have hlen1 : (handleHover s [[some i]]).1.instances.length =
      s.instances.length := handleHover_instances_length s [[some i]]
  have horig : origOf (handleHover s [[some i]]).1 i = origOf s i :=
    origOf_handleHover s [[some i]] i
  rw [handleHover_nil (handleHover s [[some i]]).1 i hcur]
  dsimp only
  rw [setScaleTarget, updateInst, get?_updateAt_self, Option.map_map, horig]
  cases hg1 : (handleHover s [[some i]]).1.instances.get? i with
  | none =>
    rw [List.get?_eq_none] at hg1
    omega
  | some a =>
    cases hgs : s.instances.get? i with
    | none =>
      rw [List.get?_eq_none] at hgs
      omega
    | some b =>
      have : origOf s i = b.originalScale := by
        unfold origOf
        rw [hgs]
        rfl
      simp [Function.comp_def, this]

/-- Witness for `hover_unhover_restores_scale` on the built carousel:
hovering then unhovering slot 1 leaves its tween target at the recorded
original scale 3. -/
theorem hover_unhover_restores_scale_witness :
    1 < sampleCarousel.length ∧
    ((((handleHover (handleHover
        { instances := sampleCarousel
          current := none
          pointerCursor := false } [[some 1]]).1 []).1).instances.get?
        1).map ModelInstance.scaleTarget =
      ((sampleCarousel.get? 1).map ModelInstance.originalScale)) := by
  constructor
  · simp [sampleCarousel, createCarousel, MODEL_POSITIONS, MODEL_PATHS,
      List.enum, List.enumFrom]
  · exact hover_unhover_restores_scale
      { instances := sampleCarousel
        current := none
        pointerCursor := false } 1
      (by simp [sampleCarousel, createCarousel, MODEL_POSITIONS,
        MODEL_PATHS, List.enum, List.enumFrom])

/-- C5: on a mouse move whose resolved ray hit is a tagged model root `m`
different from the current hover target, `handleHover` issues exactly the
tween of the previous target (when present) back to its original scale and
the tween of `m` to 1.1 times its original scale, both with duration 0.3 s
and gsap ease "power2.out", and `m` becomes the sole hover target. -/
theorem hover_transition_tweens (s : HoverState) (hits : List HitChain)
    (m : Nat) (hres : resolveModel hits = some m)
    (hne : some m ≠ s.current) :
    (handleHover s hits).2 =
      (match s.current with
       | some p => [{ idx := p, targetScale := origOf s p,
                      duration := 3/10, ease := "power2.out" }]
       | none => []) ++
      [{ idx := m, targetScale := origOf s m * (11/10),
         duration := 3/10, ease := "power2.out" }] ∧
    ((handleHover s hits).1).current = some m := by
  have h0 : hits.length > 0 := by
    cases hits with
    | nil => simp [resolveModel] at hres
    | cons a rest => simp
  refine ⟨?_, handleHover_current s hits m hres⟩
  unfold handleHover
  rw [if_pos h0, hres]
  dsimp only
  rw [if_pos hne]
  cases hcur : s.current with
  | none => rfl
  | some p => rfl

/-- Witness for `hover_transition_tweens` on the built carousel: with slot 0
hovered, a ray resolving to slot 1 tweens slot 0 back to scale 3 and slot 1
to scale 3.3, both over 0.3 s with "power2.out". -/
theorem hover_transition_tweens_witness :
    resolveModel [[none, some 1]] = some 1 ∧
    some 1 ≠ (some 0 : Option Nat) ∧
    ((handleHover { instances := sampleCarousel
                    current := some 0
                    pointerCursor := false } [[none, some 1]]).2 =
      [{ idx := 0, targetScale := 3, duration := 3/10,
         ease := "power2.out" },
       { idx := 1, targetScale := 33/10, duration := 3/10,
         ease := "power2.out" }] ∧
     ((handleHover { instances := sampleCarousel
                     current := some 0
                     pointerCursor := false } [[none, some 1]]).1).current =
       some 1) := by
  refine ⟨rfl, by simp, ?_⟩
  obtain ⟨h1, h2⟩ := hover_transition_tweens
    { instances := sampleCarousel
      current := some 0
      pointerCursor := false } [[none, some 1]] 1 rfl (by simp)
  refine ⟨?_, h2⟩
  rw [h1]
  norm_num [origOf, sampleCarousel, createCarousel, mkInstance,
    MODEL_POSITIONS, MODEL_PATHS, MODEL_SCALE, List.enum, List.enumFrom]

/-- C7: in any execution in which at least one of the three asset loads
never completes successfully (each path's success callback fires at most
once, for a real path index), the load counter stays below the path count,
`createCarousel` is never invoked, the instance list stays empty, and no
error is surfaced to the user. -/
theorem missing_load_leaves_carousel_unbuilt (events : List LoadEvent)
    (hnodup : (successIndices events).Nodup)
    (hrange : ∀ i ∈ successIndices events, i < MODEL_PATHS.length)
    (j : Nat) (hj : j < MODEL_PATHS.length)
    (hmiss : j ∉ successIndices events) :
    (runLoads events).carouselBuilt = false ∧
    (runLoads events).objects = [] ∧
    (runLoads events).loadedCount < MODEL_PATHS.length ∧
    (runLoads events).errorSurfaced = false := by
  have hlen : (successIndices events).length < MODEL_PATHS.length := by
    have hsub : (successIndices events).toFinset ⊆
        (Finset.range MODEL_PATHS.length).erase j := by
      intro x hx
      rw [List.mem_toFinset] at hx
      refine Finset.mem_erase.mpr ⟨?_, Finset.mem_range.mpr (hrange x hx)⟩
      rintro rfl
      exact hmiss hx
    have hcard := Finset.card_le_card hsub
    rw [List.toFinset_card_of_nodup hnodup] at hcard
    have herase : ((Finset.range MODEL_PATHS.length).erase j).card =
        MODEL_PATHS.length - 1 := by
      rw [Finset.card_erase_of_mem (Finset.mem_range.mpr hj),
        Finset.card_range]
    omega
  obtain ⟨h1, h2, h3, h4⟩ := foldl_loadStep_below events initLoadState
    (by dsimp only [initLoadState]; omega)
  refine ⟨h1, h2, ?_, h4⟩
  show (events.foldl loadStep initLoadState).loadedCount <
    MODEL_PATHS.length
  rw [h3]
  dsimp only [initLoadState]
  omega

/-- Witness for `missing_load_leaves_carousel_unbuilt`: path 0 and path 2
load, path 1 fails and never completes; the carousel is never built. -/
theorem missing_load_leaves_carousel_unbuilt_witness :
    (successIndices [LoadEvent.success 0, LoadEvent.failure 1,
      LoadEvent.success 2]).Nodup ∧
    (∀ i ∈ successIndices [LoadEvent.success 0, LoadEvent.failure 1,
      LoadEvent.success 2], i < MODEL_PATHS.length) ∧
    1 < MODEL_PATHS.length ∧
    1 ∉ successIndices [LoadEvent.success 0, LoadEvent.failure 1,
      LoadEvent.success 2] ∧
    ((runLoads [LoadEvent.success 0, LoadEvent.failure 1,
        LoadEvent.success 2]).carouselBuilt = false ∧
      (runLoads [LoadEvent.success 0, LoadEvent.failure 1,
        LoadEvent.success 2]).objects = [] ∧
      (runLoads [LoadEvent.success 0, LoadEvent.failure 1,
        LoadEvent.success 2]).loadedCount < MODEL_PATHS.length ∧
      (runLoads [LoadEvent.success 0, LoadEvent.failure 1,
        LoadEvent.success 2]).errorSurfaced = false) :=
  ⟨by decide, by decide, by decide, by decide,
    missing_load_leaves_carousel_unbuilt
      [LoadEvent.success 0, LoadEvent.failure 1, LoadEvent.success 2]
      (by decide) (by decide) 1 (by decide) (by decide)⟩

/-- C8: the render loop's per-frame re-pick is a second hover mechanism
with no easing: on a frame whose ray intersects raw object `o`, it sets
that object's scale directly to (1.08, 1.08, 1.08) and makes it the
`hoveredObject`; on a frame with no intersection it snaps the previously
hovered object's scale back to (1, 1, 1) and clears `hoveredObject`. -/
theorem render_loop_repick_snaps (s : AnimState) (o hprev : Nat)
    (ho : o < s.rawScales.length)
    (hh : s.hoveredObject = some hprev)
    (hp : hprev < s.rawScales.length) :
    ((animateHoverStep s (some o)).rawScales.get? o =
        some { x := 108/100, y := 108/100, z := 108/100 } ∧
      (animateHoverStep s (some o)).hoveredObject = some o) ∧
    ((animateHoverStep s none).rawScales.get? hprev =
        some { x := 1, y := 1, z := 1 } ∧
      (animateHoverStep s none).hoveredObject = none) := by
  constructor
  · unfold animateHoverStep
    rw [hh]
    dsimp only
    by_cases hne : hprev ≠ o
    · rw [if_pos hne]
      refine ⟨?_, rfl⟩
      apply get?_setRawScale_self
      rw [setRawScale_length]
      exact ho
    · rw [if_neg hne]
      exact ⟨get?_setRawScale_self _ _ _ ho, rfl⟩
  · unfold animateHoverStep
    rw [hh]
    dsimp only
    exact ⟨get?_setRawScale_self _ _ _ hp, rfl⟩

/-- Witness for `render_loop_repick_snaps`: with raw object 0 hovered and
object 1 intersected, object 1 snaps to 1.08 and, on a hit-less frame,
object 0 snaps back to 1. -/
theorem render_loop_repick_snaps_witness :
    (1 : Nat) <
      (({ hoveredObject := some 0
          rawScales := [{ x := 1, y := 1, z := 1 },
            { x := 1, y := 1, z := 1 }] } : AnimState)).rawScales.length ∧
    ((((animateHoverStep
        { hoveredObject := some 0
          rawScales := [{ x := 1, y := 1, z := 1 },
            { x := 1, y := 1, z := 1 }] } (some 1))).rawScales.get? 1 =
        some { x := 108/100, y := 108/100, z := 108/100 }) ∧
      ((animateHoverStep
        { hoveredObject := some 0
          rawScales := [{ x := 1, y := 1, z := 1 },
            { x := 1, y := 1, z := 1 }] } (some 1))).hoveredObject =
        some 1) ∧
    ((((animateHoverStep
        { hoveredObject := some 0
          rawScales := [{ x := 1, y := 1, z := 1 },
            { x := 1, y := 1, z := 1 }] } none)).rawScales.get? 0 =
        some { x := 1, y := 1, z := 1 }) ∧
      ((animateHoverStep
        { hoveredObject := some 0
          rawScales := [{ x := 1, y := 1, z := 1 },
            { x := 1, y := 1, z := 1 }] } none)).hoveredObject = none) := by
  refine ⟨by simp, ?_⟩
  exact render_loop_repick_snaps
    { hoveredObject := some 0
      rawScales := [{ x := 1, y := 1, z := 1 },
        { x := 1, y := 1, z := 1 }] } 1 0 (by simp) rfl (by simp)

/-- C9: two clicks whose rays both hit a carousel object, with timestamp
delta below the 300 ms threshold, make the second, independent window
click listener open a new browser window; it factors through `win` state
only and never touches the timer-based dispatcher's `clickCount` /
`clickTimer`, which evolve exactly as `onMouseClick` alone dictates. -/
theorem window_listener_double_open (s : PageClickState) (t1 t2 : Nat)
    (hov1 hov2 : Option ModelInstance)
    (h : t2 - t1 < doubleClickThreshold) :
    (pageClick (pageClick s t1 hov1 true).1 t2 hov2 true).2.2 = true ∧
    (pageClick (pageClick s t1 hov1 true).1 t2 hov2 true).1.win =
      (windowClickListener (windowClickListener s.win t1 true).1 t2
        true).1 ∧
    (pageClick (pageClick s t1 hov1 true).1 t2 hov2 true).1.click =
      (onMouseClick (onMouseClick s.click t1 hov1).1 t2 hov2).1 := by
  refine ⟨?_, rfl, rfl⟩
  show (windowClickListener (windowClickListener s.win t1 true).1 t2
    true).2 = true
  simpa [windowClickListener] using h

/-- Witness for `window_listener_double_open`: ray-hitting clicks at
1000 ms and 1200 ms open a new window. -/
theorem window_listener_double_open_witness :
    (1200 : Nat) - 1000 < doubleClickThreshold ∧
    ((pageClick (pageClick
        { click := { clickCount := 0, clickTimer := none }
          win := { lastClickTime := 0 } } 1000 none true).1 1200 none
        true).2.2 = true ∧
      (pageClick (pageClick
        { click := { clickCount := 0, clickTimer := none }
          win := { lastClickTime := 0 } } 1000 none true).1 1200 none
        true).1.win =
        (windowClickListener (windowClickListener
          { lastClickTime := 0 } 1000 true).1 1200 true).1 ∧
      (pageClick (pageClick
        { click := { clickCount := 0, clickTimer := none }
          win := { lastClickTime := 0 } } 1000 none true).1 1200 none
        true).1.click =
        (onMouseClick (onMouseClick { clickCount := 0, clickTimer := none }
          1000 none).1 1200 none).1) :=
  ⟨by decide,
    window_listener_double_open
      { click := { clickCount := 0, clickTimer := none }
        win := { lastClickTime := 0 } } 1000 1200 none none (by decide)⟩

end CarouselPage
